import Mathlib

/-!
Shallow embedding of the per-tab audio-processing core of the
chrome-sound-arranger extension: the Pipeline Engine (`offscreen.js`)
and the Session Coordinator (`background.js`).

Machine numbers (filter frequencies, Q values, compressor parameters,
equalizer gains in dB) are modelled as exact rationals; the `setTargetAtTime`
smoothing ramp is modelled by the target value it converges to (the ramp
window is the same fixed constant for every parameter and is irrelevant to
the properties below).  JS `Map` objects keyed by tab id are modelled as
functions `Nat → Option α`.
-/

namespace SoundArranger

/-- JS `Map` keyed by tab id. `none` means the key is absent (`!map.has(k)`). -/
abbrev TabMap (α : Type) := Nat → Option α

/-- `map.set(k, v)` of a JS Map. -/
def setTab {α : Type} (m : TabMap α) (k : Nat) (v : α) : TabMap α :=
  fun k' => if k' = k then some v else m k'

/-- `map.delete(k)` of a JS Map. -/
def eraseTab {α : Type} (m : TabMap α) (k : Nat) : TabMap α :=
  fun k' => if k' = k then none else m k'

@[simp] theorem setTab_self {α : Type} (m : TabMap α) (k : Nat) (v : α) :
    setTab m k v k = some v := by simp [setTab]

@[simp] theorem eraseTab_self {α : Type} (m : TabMap α) (k : Nat) :
    eraseTab m k k = none := by simp [eraseTab]

/-- The `EnhancementConfig` settings object.  The ten `eq1Gain` … `eq10Gain`
fields are modelled as `eqGain : Fin 10 → Option ℚ`; `none` models a missing
field (the source reads `settings[gainKey] ?? 0`). -/
structure Settings where
  voiceEnhancementEnabled : Bool
  noiseCancelEnabled : Bool
  normalizeEnabled : Bool
  eqGain : Fin 10 → Option ℚ

/-- `defaultSettings` of background.js: all enable flags true, all ten
`eqNGain` fields present and 0. -/
def defaultSettings : Settings :=
  { voiceEnhancementEnabled := true
    noiseCancelEnabled := true
    normalizeEnabled := true
    eqGain := fun _ => some 0 }

/-- The parameter targets `applySettings` (offscreen.js) programs into the
filter stages via `setTargetAtTime`: notch, bandpass and lowpass filter
parameters, the five compressor parameters, and the ten peaking-EQ gains. -/
structure FilterTargets where
  notchFreq : ℚ
  notchQ : ℚ
  bandpassFreq : ℚ
  bandpassQ : ℚ
  lowpassFreq : ℚ
  compThreshold : ℚ
  compKnee : ℚ
  compRatioVal : ℚ
  compAttack : ℚ
  compRelease : ℚ
  eqGainTargets : Fin 10 → ℚ

/-- `applySettings(resources, settings)` of offscreen.js, as the map from the
settings object (and the audio context's sample rate, read for the Nyquist
cutoff `sampleRate / 2 - 1`) to the parameter targets it sets.  Branch
structure mirrors the source: the outer `voiceEnhancementEnabled` test, the
inner `noiseCancelEnabled` and `normalizeEnabled` tests, and the
unconditional equalizer loop `eq.gain.setTargetAtTime(settings[gainKey] ?? 0, …)`. -/
def applySettings (sampleRate : ℚ) (s : Settings) : FilterTargets :=
  let eqT : Fin 10 → ℚ := fun i => (s.eqGain i).getD 0
  if s.voiceEnhancementEnabled then
    if s.noiseCancelEnabled then
      if s.normalizeEnabled then
        { notchFreq := 60, notchQ := 10, bandpassFreq := 1850, bandpassQ := 0.8
          lowpassFreq := 4000
          compThreshold := -24, compKnee := 30, compRatioVal := 12
          compAttack := 0.003, compRelease := 0.25, eqGainTargets := eqT }
      else
        { notchFreq := 60, notchQ := 10, bandpassFreq := 1850, bandpassQ := 0.8
          lowpassFreq := 4000
          compThreshold := 0, compKnee := 0, compRatioVal := 1
          compAttack := 0.003, compRelease := 0.25, eqGainTargets := eqT }
    else
      if s.normalizeEnabled then
        { notchFreq := 10, notchQ := 0.01, bandpassFreq := 10, bandpassQ := 0.01
          lowpassFreq := sampleRate / 2 - 1
          compThreshold := -24, compKnee := 30, compRatioVal := 12
          compAttack := 0.003, compRelease := 0.25, eqGainTargets := eqT }
      else
        { notchFreq := 10, notchQ := 0.01, bandpassFreq := 10, bandpassQ := 0.01
          lowpassFreq := sampleRate / 2 - 1
          compThreshold := 0, compKnee := 0, compRatioVal := 1
          compAttack := 0.003, compRelease := 0.25, eqGainTargets := eqT }
  else
    { notchFreq := 10, notchQ := 0.01, bandpassFreq := 10, bandpassQ := 0.01
      lowpassFreq := sampleRate / 2 - 1
      compThreshold := 0, compKnee := 0, compRatioVal := 1
      compAttack := 0.003, compRelease := 0.25, eqGainTargets := eqT }

/-- The audio-graph nodes created by `startAudioProcessing` (offscreen.js):
the media-stream source, the three biquad filters, the ten peaking-EQ
bands `eqBands[0] … eqBands[9]`, the compressor, the final gain node and
`audioContext.destination`. -/
inductive Node where
  | source
  | notchFilter
  | bandpassFilter
  | lowpassFilter
  | eqBand (i : Fin 10)
  | compressor
  | gainNode
  | destination
deriving DecidableEq, BEq

/-- The center frequencies (Hz) of the ten equalizer bands created by
`startAudioProcessing`. -/
def eqFrequencies : List ℚ :=
  [31, 62, 125, 250, 500, 1000, 2000, 4000, 8000, 16000]

/-- The `connect` calls issued by `startAudioProcessing`, in source order:
`sourceNode.connect(notchFilter)` … `gainNode.connect(audioContext.destination)`.
The topology is a fixed constant: no `connect` call depends on the settings. -/
def startConnections : List (Node × Node) :=
  [(Node.source, Node.notchFilter),
   (Node.notchFilter, Node.bandpassFilter),
   (Node.bandpassFilter, Node.lowpassFilter),
   (Node.lowpassFilter, Node.eqBand 0),
   (Node.eqBand 0, Node.eqBand 1),
   (Node.eqBand 1, Node.eqBand 2),
   (Node.eqBand 2, Node.compressor),
   (Node.compressor, Node.gainNode),
   (Node.gainNode, Node.destination)]

/-- Whether a node occurs as an endpoint of any `connect` call of
`startAudioProcessing` (i.e. is part of the connected signal path). -/
def nodeConnected (n : Node) : Bool :=
  startConnections.any (fun e => e.1 == n || e.2 == n)

/-- One entry of the offscreen document's `audioResources` map: the
CaptureSession.  `audioContextClosed` models `audioContext.state === 'closed'`
(the guard of the close in `stopAudioProcessing`); `targets` records the
parameter targets last programmed by `applySettings`. -/
structure Resources where
  audioContextClosed : Bool
  targets : FilterTargets

/-- The `audioResources` map of offscreen.js. -/
abbrev EngineMap := TabMap Resources

/-- Notifications offscreen.js sends to the background script via
`chrome.runtime.sendMessage`: `processing-started`, `processing-stopped`
and `error`, each carrying the tab id. -/
inductive EngineMsg where
  | started (tabId : Nat)
  | stopped (tabId : Nat)
  | errored (tabId : Nat)
deriving DecidableEq

/-- The tab id a notification carries. -/
def EngineMsg.tabId : EngineMsg → Nat
  | .started t => t
  | .stopped t => t
  | .errored t => t

/-- Record of which of the two resource releases `stopAudioProcessing`
actually reached: the `audioContext.close()` call and the
`stream.getTracks().forEach(track => track.stop())` call. -/
structure StopTrace where
  closeAttempted : Bool
  trackStopAttempted : Bool
deriving DecidableEq

/-- `stopAudioProcessing(tabId)` of offscreen.js.  `closeThrows` and
`trackThrows` model the platform calls `audioContext.close()` and
`track.stop()` raising.  Mirrors the source: with no map entry it only sends
`processing-stopped`; otherwise a single `try` block first closes the context
(guarded by `state !== 'closed'`) and then stops the tracks — so a throw from
the close aborts the `try` block before the track stop — with one `catch`
that only logs, and a `finally` that always deletes the map entry and sends
`processing-stopped`. -/
def stopAudioProcessing (m : EngineMap) (tabId : Nat)
    (closeThrows _trackThrows : Bool) : EngineMap × List EngineMsg × StopTrace :=
  match m tabId with
  | none => (m, [EngineMsg.stopped tabId], ⟨false, false⟩)
  | some r =>
      let closeAtt := !r.audioContextClosed
      let closeFailed := closeAtt && closeThrows
      let trackAtt := !closeFailed
      (eraseTab m tabId, [EngineMsg.stopped tabId], ⟨closeAtt, trackAtt⟩)

/-- `startAudioProcessing(tabId, streamId, initialSettings)` of offscreen.js.
`acquireOk` models whether `navigator.mediaDevices.getUserMedia` succeeds.
If a session already exists the function only re-sends `processing-started`.
Otherwise on success it builds the fixed graph (`startConnections`), applies
the initial settings and stores the session; on acquisition failure the
`catch` block runs `stopAudioProcessing` (releasing any partial resources)
and then sends `error`. -/
def startAudioProcessing (m : EngineMap) (tabId : Nat) (s : Settings)
    (sampleRate : ℚ) (acquireOk : Bool) : EngineMap × List EngineMsg :=
  if (m tabId).isSome then
    (m, [EngineMsg.started tabId])
  else
    if acquireOk then
      let res : Resources :=
        { audioContextClosed := false, targets := applySettings sampleRate s }
      (setTab m tabId res, [EngineMsg.started tabId])
    else
      let cleanup := stopAudioProcessing m tabId false false
      (cleanup.1, cleanup.2.1 ++ [EngineMsg.errored tabId])

/-- Per-tab status values of the background script's `capturingTabs` map. -/
inductive Status where
  | inactive
  | starting
  | active
  | stopping
deriving DecidableEq, BEq

/-- The background script's two per-tab maps: `capturingTabs`
(tab id ↦ `{ status }`) and `tabSettings` (tab id ↦ settings object). -/
structure CoordState where
  capturingTabs : TabMap Status
  tabSettings : TabMap Settings

/-- `getSettingsForTab(tabId)` of background.js: the stored settings, or a
copy of `defaultSettings` when absent. -/
def getSettingsForTab (st : CoordState) (tabId : Nat) : Settings :=
  (st.tabSettings tabId).getD defaultSettings

/-- The `get-status` answer: `capturingTabs.get(tabId)?.status || 'inactive'`. -/
def getStatus (st : CoordState) (tabId : Nat) : Status :=
  (st.capturingTabs tabId).getD Status.inactive

/-- The guard `capturingTabs.has(tabId) && capturingTabs.get(tabId).status
!== 'inactive'` used by `startCapture`, `stopCapture` and `toggleCapture`. -/
def blocksStart : Option Status → Bool
  | none => false
  | some s => decide (s ≠ Status.inactive)

/-- The `start-processing` message `startCapture` sends to the offscreen
document (`streamId` is an opaque platform handle, omitted). -/
structure StartMsg where
  tabId : Nat
  settings : Settings

/-- Result of `startCapture`: the new coordinator state, whether
`chrome.tabCapture.getMediaStreamId` (stream acquisition) was ever invoked,
and the `start-processing` message sent, if any. -/
structure StartOutcome where
  st : CoordState
  acquisitionAttempted : Bool
  sent : Option StartMsg

/-- `startCapture(tabId)` of background.js.  `acquireOk` models whether
`chrome.tabCapture.getMediaStreamId` succeeds.  Mirrors the source: refuse
(return, no acquisition) when the status is present and not `inactive`;
otherwise set status `starting`, acquire the stream id, read the current
settings (defaulting), store them if absent, and send `start-processing`
with them; the `catch` of an acquisition failure sets the status back to
`inactive`. -/
def startCapture (st : CoordState) (tabId : Nat) (acquireOk : Bool) :
    StartOutcome :=
  if blocksStart (st.capturingTabs tabId) then
    ⟨st, false, none⟩
  else
    let st1 : CoordState :=
      { st with capturingTabs := setTab st.capturingTabs tabId Status.starting }
    if acquireOk then
      let cur := getSettingsForTab st1 tabId
      let st2 : CoordState :=
        if (st1.tabSettings tabId).isSome then st1
        else { st1 with tabSettings := setTab st1.tabSettings tabId cur }
      ⟨st2, true, some ⟨tabId, cur⟩⟩
    else
      ⟨{ st1 with capturingTabs := setTab st1.capturingTabs tabId Status.inactive },
       true, none⟩

/-- `stopCapture(tabId)` of background.js: if no entry or status `inactive`,
return with nothing sent; otherwise set status `stopping` and send
`stop-processing` (modelled by the tab id it carries). -/
def stopCapture (st : CoordState) (tabId : Nat) : CoordState × Option Nat :=
  if blocksStart (st.capturingTabs tabId) then
    ({ st with capturingTabs := setTab st.capturingTabs tabId Status.stopping },
     some tabId)
  else
    (st, none)

/-- Result of `toggleCapture`: new state, whether stream acquisition was
invoked, the `start-processing` message sent (if the start branch ran) and
the `stop-processing` message sent (if the stop branch ran). -/
structure ToggleOutcome where
  st : CoordState
  acquisitionAttempted : Bool
  startSent : Option StartMsg
  stopSent : Option Nat

/-- `toggleCapture(tabId)` of background.js: stop when the status is present
and not `inactive`, otherwise start. -/
def toggleCapture (st : CoordState) (tabId : Nat) (acquireOk : Bool) :
    ToggleOutcome :=
  if blocksStart (st.capturingTabs tabId) then
    let r := stopCapture st tabId
    ⟨r.1, false, none, r.2⟩
  else
    let o := startCapture st tabId acquireOk
    ⟨o.st, o.acquisitionAttempted, o.sent, none⟩

/-- The `update-settings` branch of the background script's popup message
handler (settings object present): store the settings in `tabSettings`,
and forward an `update-settings` message to the offscreen document exactly
when `capturingTabs.get(tabId)?.status === 'active'`.  Returns the new state
and the forwarded message, if any. -/
def updateSettingsHandler (st : CoordState) (tabId : Nat) (s : Settings) :
    CoordState × Option StartMsg :=
  let st' : CoordState := { st with tabSettings := setTab st.tabSettings tabId s }
  if st.capturingTabs tabId = some Status.active then
    (st', some ⟨tabId, s⟩)
  else
    (st', none)

/-- The offscreen branch of the background script's message handler: on
`processing-started` / `processing-stopped` / `error` for a tab id that has
an entry in `capturingTabs`, set the status to `active` / `inactive` /
`inactive` and push a `status-update` to the popup; for a tab id with no
entry, do nothing (`newStatus` stays null, no push).  Returns the new state
and the pushed `status-update` (tab id, status), if any. -/
def handleOffscreenMessage (st : CoordState) (msg : EngineMsg) :
    CoordState × Option (Nat × Status) :=
  match msg with
  | .started t =>
      match st.capturingTabs t with
      | some _ =>
          ({ st with capturingTabs := setTab st.capturingTabs t Status.active },
           some (t, Status.active))
      | none => (st, none)
  | .stopped t =>
      match st.capturingTabs t with
      | some _ =>
          ({ st with capturingTabs := setTab st.capturingTabs t Status.inactive },
           some (t, Status.inactive))
      | none => (st, none)
  | .errored t =>
      match st.capturingTabs t with
      | some _ =>
          ({ st with capturingTabs := setTab st.capturingTabs t Status.inactive },
           some (t, Status.inactive))
      | none => (st, none)

/-- Sequential delivery of a list of engine notifications to the background
script's handler. -/
def deliverAll (st : CoordState) (msgs : List EngineMsg) : CoordState :=
  msgs.foldl (fun c msg => (handleOffscreenMessage c msg).1) st

/-! Concrete example states used by witnesses and counterexamples. -/

/-- Targets obtained by applying the default settings at a 48 kHz context. -/
def sampleTargets : FilterTargets := applySettings 48000 defaultSettings

/-- A live CaptureSession (context not closed). -/
def sampleResources : Resources := ⟨false, sampleTargets⟩

/-- Engine map holding a session for tab 1 only. -/
def engineMap1 : EngineMap := setTab (fun _ => none) 1 sampleResources

/-- Engine map with no sessions. -/
def emptyEngineMap : EngineMap := fun _ => none

/-- Coordinator state with tab 1 `active` and no stored settings. -/
def coordActive1 : CoordState := ⟨setTab (fun _ => none) 1 Status.active, fun _ => none⟩

/-- Coordinator state with tab 7 `starting` and no stored settings. -/
def coordStarting7 : CoordState := ⟨setTab (fun _ => none) 7 Status.starting, fun _ => none⟩

/-- Coordinator state with no entries in either map. -/
def emptyCoord : CoordState := ⟨fun _ => none, fun _ => none⟩

/-- A config with the master voice-enhancement flag off and the sub-flags
set one way. -/
def cfgOffA : Settings := ⟨false, true, false, fun _ => some 0⟩

/-- A config with the master voice-enhancement flag off and the sub-flags
set the other way. -/
def cfgOffB : Settings := ⟨false, false, true, fun _ => some 0⟩

/-! Claim theorems. -/

/-- Claim C1 (code bug evaluation): `startAudioProcessing` constructs ten
peaking-EQ bands (`eqFrequencies` lists the ten band frequencies, and
`applySettings` drives ten gain targets), but its `connect` calls put only
`eqBands[0]`, `eqBands[1]` and `eqBands[2]` into the signal path: bands 3–9
(250 Hz … 16000 Hz) appear in no connection, so the claimed full ten-band
chain is not built. -/
theorem startConnections_omit_eq_bands :
    eqFrequencies.length = 10 ∧
    nodeConnected (Node.eqBand 0) = true ∧
    nodeConnected (Node.eqBand 1) = true ∧
    nodeConnected (Node.eqBand 2) = true ∧
    nodeConnected (Node.eqBand 3) = false ∧
    nodeConnected (Node.eqBand 4) = false ∧
    nodeConnected (Node.eqBand 5) = false ∧
    nodeConnected (Node.eqBand 6) = false ∧
    nodeConnected (Node.eqBand 7) = false ∧
    nodeConnected (Node.eqBand 8) = false ∧
    nodeConnected (Node.eqBand 9) = false ∧
    nodeConnected Node.notchFilter = true ∧
    nodeConnected Node.bandpassFilter = true ∧
    nodeConnected Node.lowpassFilter = true ∧
    nodeConnected Node.compressor = true ∧
    nodeConnected Node.gainNode = true ∧
    nodeConnected Node.destination = true := by decide

/-- Claim C2 (counterexample): with a live session for tab 1, if
`audioContext.close()` throws then the track stop is never attempted —
the two releases sit in one `try` block, so they are not independent. -/
theorem stopAudioProcessing_close_failure_skips_tracks :
    (engineMap1 1).isSome = true ∧
    (stopAudioProcessing engineMap1 1 true false).2.2.closeAttempted = true ∧
    (stopAudioProcessing engineMap1 1 true false).2.2.trackStopAttempted = false :=
  ⟨rfl, rfl, rfl⟩

/-- Claim C2 (amended): in `stopAudioProcessing` with an existing session the
context close is attempted first (whenever the context is not already
closed); the track stop is attempted exactly when the close did not throw —
so a track-stop failure never prevents the close, but a close failure does
prevent the track stop; regardless of either failure the session record is
always removed and `processing-stopped` is always emitted. -/
theorem stopAudioProcessing_release_order (m : EngineMap) (tabId : Nat)
    (r : Resources) (closeThrows trackThrows : Bool)
    (h : m tabId = some r) :
    (stopAudioProcessing m tabId closeThrows trackThrows).2.2.closeAttempted
      = !r.audioContextClosed ∧
    (stopAudioProcessing m tabId closeThrows trackThrows).2.2.trackStopAttempted
      = !((!r.audioContextClosed) && closeThrows) ∧
    (stopAudioProcessing m tabId closeThrows trackThrows).1 tabId = none ∧
    (stopAudioProcessing m tabId closeThrows trackThrows).2.1
      = [EngineMsg.stopped tabId] := by
  simp [stopAudioProcessing, h]

/-- Witness for the amended C2 at the concrete session map for tab 1 with a
throwing close. -/
theorem stopAudioProcessing_release_order_witness :
    (stopAudioProcessing engineMap1 1 true false).2.2.closeAttempted = true ∧
    (stopAudioProcessing engineMap1 1 true false).2.2.trackStopAttempted = false ∧
    (stopAudioProcessing engineMap1 1 true false).1 1 = none ∧
    (stopAudioProcessing engineMap1 1 true false).2.1 = [EngineMsg.stopped 1] :=
  stopAudioProcessing_release_order engineMap1 1 sampleResources true false rfl

/-- Claim C3: when `voiceEnhancementEnabled` is false, `applySettings`
produces identical targets regardless of `noiseCancelEnabled` and
`normalizeEnabled` (given equal eq-gain fields), and those targets are the
neutral set: notch at 10 Hz (below the audible band) with Q 0.01, bandpass
likewise at 10 Hz with Q 0.01, lowpass at the Nyquist cutoff
`sampleRate / 2 - 1`, compressor threshold 0, knee 0, ratio 1. -/
theorem applySettings_bypass_equivalence (sampleRate : ℚ) (s1 s2 : Settings)
    (h1 : s1.voiceEnhancementEnabled = false)
    (h2 : s2.voiceEnhancementEnabled = false)
    (hg : s1.eqGain = s2.eqGain) :
    applySettings sampleRate s1 = applySettings sampleRate s2 ∧
    (applySettings sampleRate s1).notchFreq = 10 ∧
    (applySettings sampleRate s1).notchQ = 0.01 ∧
    (applySettings sampleRate s1).bandpassFreq = 10 ∧
    (applySettings sampleRate s1).bandpassQ = 0.01 ∧
    (applySettings sampleRate s1).lowpassFreq = sampleRate / 2 - 1 ∧
    (applySettings sampleRate s1).compThreshold = 0 ∧
    (applySettings sampleRate s1).compKnee = 0 ∧
    (applySettings sampleRate s1).compRatioVal = 1 := by
  simp [applySettings, h1, h2, hg]

/-- Witness for C3: two configs with the master flag off and opposite
sub-flags give the same neutral targets at 48 kHz. -/
theorem applySettings_bypass_equivalence_witness :
    applySettings 48000 cfgOffA = applySettings 48000 cfgOffB ∧
    (applySettings 48000 cfgOffA).notchFreq = 10 ∧
    (applySettings 48000 cfgOffA).notchQ = 0.01 ∧
    (applySettings 48000 cfgOffA).bandpassFreq = 10 ∧
    (applySettings 48000 cfgOffA).bandpassQ = 0.01 ∧
    (applySettings 48000 cfgOffA).lowpassFreq = 48000 / 2 - 1 ∧
    (applySettings 48000 cfgOffA).compThreshold = 0 ∧
    (applySettings 48000 cfgOffA).compKnee = 0 ∧
    (applySettings 48000 cfgOffA).compRatioVal = 1 :=
  applySettings_bypass_equivalence 48000 cfgOffA cfgOffB rfl rfl rfl

/-- Claim C8: each equalizer gain target equals `(eqGain k).getD 0` —
computed from the band's own field alone (so it is independent of every
enable flag, of the sample rate, of the other bands, and a missing field
defaults to 0 dB) — and the notch/bandpass/lowpass/compressor targets depend
only on the three enable flags (and the sample rate), never on any eq-gain
field. -/
theorem applySettings_eq_independence :
    (∀ (sampleRate : ℚ) (s : Settings) (i : Fin 10),
        (applySettings sampleRate s).eqGainTargets i = (s.eqGain i).getD 0) ∧
    (∀ (sampleRate : ℚ) (s1 s2 : Settings),
        s1.voiceEnhancementEnabled = s2.voiceEnhancementEnabled →
        s1.noiseCancelEnabled = s2.noiseCancelEnabled →
        s1.normalizeEnabled = s2.normalizeEnabled →
        (applySettings sampleRate s1).notchFreq
            = (applySettings sampleRate s2).notchFreq ∧
        (applySettings sampleRate s1).notchQ
            = (applySettings sampleRate s2).notchQ ∧
        (applySettings sampleRate s1).bandpassFreq
            = (applySettings sampleRate s2).bandpassFreq ∧
        (applySettings sampleRate s1).bandpassQ
            = (applySettings sampleRate s2).bandpassQ ∧
        (applySettings sampleRate s1).lowpassFreq
            = (applySettings sampleRate s2).lowpassFreq ∧
        (applySettings sampleRate s1).compThreshold
            = (applySettings sampleRate s2).compThreshold ∧
        (applySettings sampleRate s1).compKnee
            = (applySettings sampleRate s2).compKnee ∧
        (applySettings sampleRate s1).compRatioVal
            = (applySettings sampleRate s2).compRatioVal ∧
        (applySettings sampleRate s1).compAttack
            = (applySettings sampleRate s2).compAttack ∧
        (applySettings sampleRate s1).compRelease
            = (applySettings sampleRate s2).compRelease) := by
  constructor
  · intro sampleRate s i
    unfold applySettings
    cases hv : s.voiceEnhancementEnabled <;>
      cases hn : s.noiseCancelEnabled <;>
      cases hm : s.normalizeEnabled <;> simp
  · intro sampleRate s1 s2 hv hn hm
    unfold applySettings
    rw [hv, hn, hm]
    cases s2.voiceEnhancementEnabled <;>
      cases s2.noiseCancelEnabled <;>
      cases s2.normalizeEnabled <;> simp

/-- Witness for C8: all ten gain targets of the defaults are 0 via the
first conjunct; flag-agreeing configs with different gains share notch
targets via the second conjunct. -/
theorem applySettings_eq_independence_witness :
    (applySettings 48000 defaultSettings).eqGainTargets 3
      = (defaultSettings.eqGain 3).getD 0 ∧
    (applySettings 48000 cfgOffA).notchFreq
      = (applySettings 48000 ⟨false, true, false, fun _ => some 6⟩).notchFreq :=
  ⟨applySettings_eq_independence.1 48000 defaultSettings 3,
   (applySettings_eq_independence.2 48000 cfgOffA
      ⟨false, true, false, fun _ => some 6⟩ rfl rfl rfl).1⟩

/-- Claim C4: while a tab's status is `starting` or `active`, `startCapture`
refuses (state untouched, no acquisition, nothing sent) and `toggleCapture`
never acquires a stream nor sends `start-processing`; and a
`startAudioProcessing` arriving for a tab that already has a session leaves
the engine map unchanged and only re-announces `processing-started` — so at
most one CaptureSession ever exists per tab. -/
theorem single_session_guard (st : CoordState) (m : EngineMap) (tabId : Nat)
    (acquireOk : Bool) (s : Settings) (sampleRate : ℚ) (r : Resources)
    (hcoord : st.capturingTabs tabId = some Status.starting ∨
              st.capturingTabs tabId = some Status.active)
    (heng : m tabId = some r) :
    (startCapture st tabId acquireOk).acquisitionAttempted = false ∧
    (startCapture st tabId acquireOk).st = st ∧
    (startCapture st tabId acquireOk).sent = none ∧
    (toggleCapture st tabId acquireOk).acquisitionAttempted = false ∧
    (toggleCapture st tabId acquireOk).startSent = none ∧
    startAudioProcessing m tabId s sampleRate acquireOk
      = (m, [EngineMsg.started tabId]) := by
  have hb : blocksStart (st.capturingTabs tabId) = true := by
    rcases hcoord with h | h <;> simp [blocksStart, h]
  simp [startCapture, toggleCapture, hb, startAudioProcessing, heng]

/-- Witness for C4 at tab 1 `active` with a live engine session. -/
theorem single_session_guard_witness :
    (startCapture coordActive1 1 true).acquisitionAttempted = false ∧
    (startCapture coordActive1 1 true).st = coordActive1 ∧
    (startCapture coordActive1 1 true).sent = none ∧
    (toggleCapture coordActive1 1 true).acquisitionAttempted = false ∧
    (toggleCapture coordActive1 1 true).startSent = none ∧
    startAudioProcessing engineMap1 1 defaultSettings 48000 true
      = (engineMap1, [EngineMsg.started 1]) :=
  single_session_guard coordActive1 engineMap1 1 true defaultSettings 48000
    sampleResources (Or.inr rfl) rfl

/-- Claim C5: if stream acquisition fails in `startAudioProcessing` for a tab
in `starting`, no session exists for that tab afterwards, an `error`
notification carrying that tab id is emitted, and after the emitted
notifications are delivered to the background script the tab's status is
`inactive` — never stuck in `starting`. -/
theorem acquisition_failure_converges (st : CoordState) (m : EngineMap)
    (tabId : Nat) (s : Settings) (sampleRate : ℚ)
    (hst : st.capturingTabs tabId = some Status.starting)
    (hm : m tabId = none) :
    (startAudioProcessing m tabId s sampleRate false).1 tabId = none ∧
    EngineMsg.errored tabId ∈ (startAudioProcessing m tabId s sampleRate false).2 ∧
    getStatus (deliverAll st (startAudioProcessing m tabId s sampleRate false).2)
        tabId = Status.inactive := by
  have hmsgs : startAudioProcessing m tabId s sampleRate false
      = (m, [EngineMsg.stopped tabId, EngineMsg.errored tabId]) := by
    simp [startAudioProcessing, stopAudioProcessing, hm]
  rw [hmsgs]
  refine ⟨hm, by simp, ?_⟩
  simp [deliverAll, handleOffscreenMessage, hst, getStatus, setTab]

/-- Witness for C5: tab 7 in `starting` with an empty engine map. -/
theorem acquisition_failure_converges_witness :
    (startAudioProcessing emptyEngineMap 7 defaultSettings 48000 false).1 7
        = none ∧
    EngineMsg.errored 7
        ∈ (startAudioProcessing emptyEngineMap 7 defaultSettings 48000 false).2 ∧
    getStatus
        (deliverAll coordStarting7
          (startAudioProcessing emptyEngineMap 7 defaultSettings 48000 false).2)
        7 = Status.inactive :=
  acquisition_failure_converges coordStarting7 emptyEngineMap 7 defaultSettings
    48000 rfl rfl

/-- Claim C6: for every engine map and every tab id — including a tab with no
session — `stopAudioProcessing` ends with no session record for the tab and
emits exactly one `processing-stopped` notification and no error, whatever
the two platform release calls do. -/
theorem stop_idempotent_safe (m : EngineMap) (tabId : Nat)
    (closeThrows trackThrows : Bool) :
    (stopAudioProcessing m tabId closeThrows trackThrows).1 tabId = none ∧
    (stopAudioProcessing m tabId closeThrows trackThrows).2.1
      = [EngineMsg.stopped tabId] := by
  unfold stopAudioProcessing
  cases h : m tabId <;> simp [h]

/-- Claim C7: a settings update always stores the settings, never changes
`capturingTabs`, forwards to the offscreen document exactly when the tab's
status is `active`, and the stored value is what the next successful
`startCapture` sends as the session's initial config. -/
theorem update_settings_behavior (st : CoordState) (tabId : Nat) (s : Settings) :
    (updateSettingsHandler st tabId s).1.capturingTabs = st.capturingTabs ∧
    (updateSettingsHandler st tabId s).1.tabSettings tabId = some s ∧
    (st.capturingTabs tabId = some Status.active →
      (updateSettingsHandler st tabId s).2 = some ⟨tabId, s⟩) ∧
    (st.capturingTabs tabId ≠ some Status.active →
      (updateSettingsHandler st tabId s).2 = none) ∧
    (blocksStart (st.capturingTabs tabId) = false →
      (startCapture (updateSettingsHandler st tabId s).1 tabId true).sent
        = some ⟨tabId, s⟩) := by
  have hcap : (updateSettingsHandler st tabId s).1.capturingTabs
      = st.capturingTabs := by
    unfold updateSettingsHandler
    by_cases h : st.capturingTabs tabId = some Status.active <;> simp [h]
  have hset : (updateSettingsHandler st tabId s).1.tabSettings tabId = some s := by
    unfold updateSettingsHandler
    by_cases h : st.capturingTabs tabId = some Status.active <;> simp [h, setTab]
  refine ⟨hcap, hset, ?_, ?_, ?_⟩
  · intro h
    simp [updateSettingsHandler, h]
  · intro h
    simp [updateSettingsHandler, h]
  · intro hb
    have h : ¬ st.capturingTabs tabId = some Status.active := by
      intro h
      rw [h] at hb
      simp [blocksStart] at hb
    simp [updateSettingsHandler, h, startCapture, hb, getSettingsForTab, setTab]

/-- Witness for C7 at tab 1 `active`: settings stored, forwarded, state map
untouched. -/
theorem update_settings_behavior_witness :
    (updateSettingsHandler coordActive1 1 cfgOffA).1.capturingTabs
        = coordActive1.capturingTabs ∧
    (updateSettingsHandler coordActive1 1 cfgOffA).1.tabSettings 1
        = some cfgOffA ∧
    (updateSettingsHandler coordActive1 1 cfgOffA).2 = some ⟨1, cfgOffA⟩ :=
  ⟨(update_settings_behavior coordActive1 1 cfgOffA).1,
   (update_settings_behavior coordActive1 1 cfgOffA).2.1,
   (update_settings_behavior coordActive1 1 cfgOffA).2.2.1 rfl⟩

/-- Claim C9: a tab with no entry in either coordinator map answers
`get-status` with `inactive` and `get-settings` with the defaults: all three
enable flags true and all ten eq gains 0. -/
theorem never_started_defaults (st : CoordState) (tabId : Nat)
    (h1 : st.capturingTabs tabId = none)
    (h2 : st.tabSettings tabId = none) :
    getStatus st tabId = Status.inactive ∧
    getSettingsForTab st tabId = defaultSettings ∧
    defaultSettings.voiceEnhancementEnabled = true ∧
    defaultSettings.noiseCancelEnabled = true ∧
    defaultSettings.normalizeEnabled = true ∧
    (∀ i : Fin 10, defaultSettings.eqGain i = some 0) := by
  exact ⟨by simp [getStatus, h1], by simp [getSettingsForTab, h2],
    rfl, rfl, rfl, fun i => rfl⟩

/-- Witness for C9 at tab 5 of the empty coordinator state. -/
theorem never_started_defaults_witness :
    getStatus emptyCoord 5 = Status.inactive ∧
    getSettingsForTab emptyCoord 5 = defaultSettings ∧
    defaultSettings.voiceEnhancementEnabled = true ∧
    defaultSettings.noiseCancelEnabled = true ∧
    defaultSettings.normalizeEnabled = true ∧
    (∀ i : Fin 10, defaultSettings.eqGain i = some 0) :=
  never_started_defaults emptyCoord 5 rfl rfl

/-- Claim C10: an engine notification for a tab with no entry in
`capturingTabs` leaves the coordinator state exactly as it was, pushes no
`status-update`, and a subsequent `get-status` for that tab still answers
`inactive`. -/
theorem unknown_tab_notification_noop (st : CoordState) (msg : EngineMsg)
    (h : st.capturingTabs msg.tabId = none) :
    handleOffscreenMessage st msg = (st, none) ∧
    getStatus st msg.tabId = Status.inactive := by
  cases msg <;> simp_all [handleOffscreenMessage, EngineMsg.tabId, getStatus]

/-- Witness for C10: a `processing-started` for tab 4 of the empty
coordinator state. -/
theorem unknown_tab_notification_noop_witness :
    handleOffscreenMessage emptyCoord (EngineMsg.started 4) = (emptyCoord, none) ∧
    getStatus emptyCoord (EngineMsg.started 4).tabId = Status.inactive :=
  unknown_tab_notification_noop emptyCoord (EngineMsg.started 4) rfl

end SoundArranger
